import Mathlib

/-!
Verification of the hexchat Python scripting bridge
(src/plugins/python/python.py) against its natural-language
specification.  The Python source is shallowly embedded: pure helpers
become Lean functions, stateful operations pass state explicitly, host
API calls and print output become explicit event lists, and fallible
Python code returns `Except`.
-/

namespace HexchatPy

/-- A small universe of Python values, covering the values that flow
through the bridge's callbacks and console: `None`, booleans, integers
and strings. -/
inductive PyVal where
  | none
  | bool (b : Bool)
  | int (n : Int)
  | str (s : String)
deriving DecidableEq, Repr

/-- Python exceptions as they matter to the bridge: `AttributeError`
(attribute access on a value lacking it), `KeyError`, `AssertionError`,
and a generic exception carrying its message. -/
inductive PyErr where
  | attributeError
  | keyError
  | assertionError
  | exc (msg : String)
deriving DecidableEq, Repr

/-- Python truthiness (`bool(v)`): `None` is falsy, a number is truthy
iff nonzero, a string iff nonempty. -/
def truthy : PyVal → Bool
  | PyVal.none => false
  | PyVal.bool b => b
  | PyVal.int n => n != 0
  | PyVal.str s => s != ""

/-- The text a Python exception prints as (used for `print(e)` and for
the traceback a caught callback exception produces). -/
def pyErrText : PyErr → String
  | PyErr.attributeError => "AttributeError"
  | PyErr.keyError => "KeyError"
  | PyErr.assertionError => "AssertionError"
  | PyErr.exc m => m

/-- Where `sys.stdout` / `sys.stderr` can point inside the bridge:
either the interpreter's original streams (`sys.__stdout__`) or the
bridge's `Stdout` redirector object (`hexchat_stdout`). -/
inductive StreamTarget where
  | original
  | redirector
deriving DecidableEq, Repr

/-- The pair (`sys.stdout`, `sys.stderr`). -/
structure Sys where
  stdout : StreamTarget
  stderr : StreamTarget
deriving DecidableEq, Repr

/-- Both streams at their interpreter originals (`sys.__stdout__`,
`sys.__stderr__`), the state outside any `redirected_stdout` scope. -/
def sysOrig : Sys := { stdout := StreamTarget.original, stderr := StreamTarget.original }

/-- Both streams pointing at the bridge's redirector, the state inside
a `redirected_stdout` scope. -/
def sysRedirected : Sys := { stdout := StreamTarget.redirector, stderr := StreamTarget.redirector }

/-- Embeds `redirected_stdout` (python.py lines 41-47) together with
Python's generator-based `@contextmanager` semantics.  The manager sets
both streams to the redirector, yields, and then restores them — but the
restore statements sit after the bare `yield` with no `try`/`finally`,
so when the body raises, the exception is thrown into the generator at
the `yield`, the statements after it never run, and the streams stay
redirected.  The body receives the stream state in effect while it
runs; the result is the stream state after the `with` block ends
(normally or by exception) paired with the body's outcome. -/
def redirected_run (body : Sys → Except PyErr α) : Sys × Except PyErr α :=
  match body sysRedirected with
  | Except.ok a => (sysOrig, Except.ok a)
  | Except.error e => (sysRedirected, Except.error e)

/-- Embeds `wordlist_len`'s loop `for i in range(31, 1, -1)`
(python.py lines 154-158), started at the given index: it visits
indices down to 2 inclusive and returns the first index holding a
non-empty string, or 0 when the loop finishes.  The raw host array is
modelled as a function from slot index to the (already `ffi.string`ed)
slot contents. -/
def wordlist_len_from (words : Nat → String) : Nat → Nat
  | 0 => 0
  | 1 => 0
  | Nat.succ (Nat.succ i) =>
      if words (i + 2) ≠ "" then i + 2 else wordlist_len_from words (i + 1)

/-- Embeds `wordlist_len` (python.py lines 154-158): scan from slot 31
downward (the loop's range stops before index 1) for the last non-empty
slot; 0 when none is found. -/
def wordlist_len (words : Nat → String) : Nat :=
  wordlist_len_from words 31

/-- Embeds `create_wordlist` (python.py lines 161-163): decode slots
1 through `wordlist_len words` in order (`__decode` on Python 3 is the
bytes-to-str decode, modelled as the identity on the already-decoded
slot strings). -/
def create_wordlist (words : Nat → String) : List String :=
  (List.range' 1 (wordlist_len words)).map words

/-- One iteration of `create_wordeollist`'s loop body (python.py lines
174-179): on the first word (`accum is None`) the accumulator becomes
that word; afterwards a non-empty word is joined in front of the
accumulator with a single space, while an empty word leaves the
accumulator unchanged. -/
def wordeol_step (accum : Option String) (word : String) : String :=
  match accum with
  | Option.none => word
  | Option.some a => if word ≠ "" then word ++ " " ++ a else a

/-- Embeds `create_wordeollist`'s loop (python.py lines 169-181) over
the already-reversed word sequence: each processed word updates the
accumulator via `wordeol_step` and the accumulator value is inserted at
position 0 of the result (`ret.insert(0, accum)`), so later-processed
words appear first. -/
def wordeol_go (accum : Option String) : List String → List String
  | [] => []
  | w :: ws =>
      let a := wordeol_step accum w
      wordeol_go (Option.some a) ws ++ [a]

/-- Embeds `create_wordeollist` (python.py lines 169-181): run the loop
over `reversed(words)` with an initially-`None` accumulator. -/
def create_wordeollist (words : List String) : List String :=
  wordeol_go Option.none words.reverse

/-- The final value of the accumulator after `wordeol_go` processes a
word sequence (used to reason about the loop). -/
def wordeol_final (accum : Option String) : List String → Option String
  | [] => accum
  | w :: ws => wordeol_final (Option.some (wordeol_step accum w)) ws

/-- The argument tuples a script-supplied hook callback can be invoked
with.  `single` is the one-argument form used for unload hooks
(`hook.callback(hook.userdata)`, python.py line 137) and timer hooks
(line 244); `wordArgs` is the `(word, word_eol, userdata)` form of the
command/print/server trampolines; `wordAttrArgs` additionally carries
the `server_time_utc` attribute copied into the script-visible
`Attribute` object by the `_attrs` trampolines. -/
inductive CbArgs where
  | single (userdata : PyVal)
  | wordArgs (word : List String) (word_eol : List String) (userdata : PyVal)
  | wordAttrArgs (word : List String) (word_eol : List String)
      (server_time_utc : Int) (userdata : PyVal)

/-- Embeds the `Hook` object (python.py lines 50-63).  `hid` stands for
the CPython object identity `id(hook)` that serves as the script-facing
handle; `callback` is the script-supplied callable, a function from its
argument tuple to either a value or a raised exception; `hexchat_hook`
is the native registration handle, `None` as `Hook.__init__` leaves it
(nothing in python.py ever assigns it). -/
structure Hook where
  hid : Nat
  is_unload : Bool
  callback : CbArgs → Except PyErr PyVal
  userdata : PyVal
  hexchat_hook : Option Nat

/-- Embeds the per-script `Plugin` object's state (python.py lines
80-88): metadata strings, the owning file name, the handle of the
host-side GUI entry (`ph`), and the set of owned hooks (modelled as a
list; Python keeps a `set`, whose iteration order is arbitrary, and no
claim here depends on the order within the list). -/
structure Plugin where
  ph : Option Nat
  name : String
  filename : String
  version : String
  description : String
  hooks : List Hook

/-- A freshly constructed `Plugin()` before `loadfile` runs: empty
metadata, no GUI entry, no hooks. -/
def emptyPlugin : Plugin :=
  { ph := Option.none, name := "", filename := "", version := "",
    description := "", hooks := [] }

/-- Calls the bridge makes into the host's native plugin API. -/
inductive HostCall where
  | hexchat_unhook (handle : Nat)
  | plugingui_add (filename : String) (name : String)
      (description : String) (version : String)
  | plugingui_remove (ph : Nat)
deriving DecidableEq, Repr

/-- Embeds `Plugin.add_hook` (python.py lines 90-93): construct a
`Hook` (its `hexchat_hook` field left `None` by `Hook.__init__`), add
it to the plugin's hook set and return it.  The returned `List
HostCall` records every call into the host's native API the method
makes during its run; the body performs none — in particular it takes
no event kind and registers nothing with the host. -/
def Plugin.add_hook (p : Plugin) (hid : Nat) (callback : CbArgs → Except PyErr PyVal)
    (userdata : PyVal) (is_unload : Bool) : Plugin × Hook × List HostCall :=
  let hook : Hook :=
    { hid := hid, is_unload := is_unload, callback := callback,
      userdata := userdata, hexchat_hook := Option.none }
  ({ p with hooks := p.hooks ++ [hook] }, hook, [])

/-- Embeds `Plugin.remove_hook` (python.py lines 95-102).  The `hook`
parameter is the integer handle callers pass (the loop compares it with
`id(h)`).  When some owned hook's identity matches, the body evaluates
`hook.userdata` — an attribute access on that integer — which raises
`AttributeError` before `self.hooks.remove(h)` runs, so the hook stays
and the error propagates.  When no hook matches, the `for`/`else`
branch prints "Hook not found" and the method returns `None`.  Result:
(outcome, plugin state after, lines printed). -/
def Plugin.remove_hook (p : Plugin) (hook : Nat) :
    Except PyErr (Option PyVal) × Plugin × List String :=
  if p.hooks.any (fun h => h.hid == hook) then
    (Except.error PyErr.attributeError, p, [])
  else
    (Except.ok Option.none, p, ["Hook not found"])

/-- The observable events of a plugin teardown (`Plugin.__del__` and
the `Hook.__del__` runs it triggers), in order. -/
inductive TeardownEvent where
  | unloadCallbackRun (hid : Nat)
  | unloadCallbackFailed (hid : Nat) (text : String)
  | unhook (native : Nat)
  | assertFailed (hid : Nat)
  | guiRemove (ph : Nat)
deriving DecidableEq, Repr

/-- One iteration of `Plugin.__del__`'s first loop (python.py lines
133-139) for one hook: an unload-marked hook's callback is invoked
inside a `redirected_stdout` scope with a per-hook `try`/`except` that
prints "Failed to run hook:" and the exception, so one failing callback
never prevents the others from running; hooks not marked unload are
skipped by this loop. -/
def run_unload_hook (h : Hook) : List TeardownEvent :=
  if h.is_unload then
    TeardownEvent.unloadCallbackRun h.hid ::
      (match h.callback (CbArgs.single h.userdata) with
       | Except.ok _ => []
       | Except.error e =>
           [TeardownEvent.unloadCallbackFailed h.hid ("Failed to run hook: " ++ pyErrText e)])
  else []

/-- Embeds `Hook.__del__` (python.py lines 59-63), which runs for each
hook when `del self.hooks` drops the set's last references: a hook not
marked unload asserts that its native handle is present and calls
`hexchat_unhook` on it (`assertFailed` records the assertion tripping
when `hexchat_hook` is still `None`); an unload-marked hook deregisters
nothing. -/
def hook_del (h : Hook) : List TeardownEvent :=
  if h.is_unload then []
  else
    match h.hexchat_hook with
    | Option.some n => [TeardownEvent.unhook n]
    | Option.none => [TeardownEvent.assertFailed h.hid]

/-- Embeds `Plugin.__del__` (python.py lines 131-142), the teardown run
for both unload and reload: first the loop invoking every unload-marked
hook's callback (exceptions caught and reported per hook), then `del
self.hooks`, whose reference drops run `Hook.__del__` for every hook,
then `hexchat_plugingui_remove` when a GUI entry exists. -/
def plugin_del (p : Plugin) : List TeardownEvent :=
  (p.hooks.map run_unload_hook).flatten ++ (p.hooks.map hook_del).flatten ++
    (match p.ph with
     | Option.some n => [TeardownEvent.guiRemove n]
     | Option.none => [])

/-- Embeds `to_cb_ret` (python.py lines 184-188): `None` maps to
`hexchat.EAT_NONE` (0); any other value goes through `int(value)` —
exact for booleans and integers, and raising `ValueError` for a
non-numeric string. -/
def to_cb_ret : PyVal → Except PyErr Int
  | PyVal.none => Except.ok 0
  | PyVal.bool b => Except.ok (if b then 1 else 0)
  | PyVal.int n => Except.ok n
  | PyVal.str s => Except.error (PyErr.exc ("ValueError: int: " ++ s))

/-- What one trampoline invocation looks like from outside: the integer
handed back to the host, the stream state left behind, every line
printed during the call tagged with the stream it went to, and every
native handle the call deregistered. -/
structure TrampOut where
  ret : Int
  sysAfter : Sys
  printed : List (StreamTarget × String)
  unhooked : List Nat
deriving DecidableEq, Repr

/-- The cffi `@ffi.def_extern()` boundary every trampoline is declared
under: the Python body runs; if it raises, cffi catches the exception
at the extern boundary, writes the traceback to the `sys.stderr` in
effect at that moment, and returns the declared error value (0 when no
`error=` was given, as for all the hook trampolines) to the host, so no
exception ever crosses into C.  The body is run under `redirected_run`
since every trampoline wraps its callback in `with
redirected_stdout()`; nothing in any trampoline body calls
`hexchat_unhook`, so `unhooked` is empty. -/
def extern_tramp (body : Sys → Except PyErr Int) : TrampOut :=
  match redirected_run body with
  | (s, Except.ok n) => { ret := n, sysAfter := s, printed := [], unhooked := [] }
  | (s, Except.error e) =>
      { ret := 0, sysAfter := s,
        printed := [(s.stderr, "Traceback: " ++ pyErrText e)], unhooked := [] }

/-- Embeds `_on_command_hook` (python.py lines 191-197): marshal both
raw arrays through `create_wordlist`, then inside the redirected scope
call the hook's callback and convert its result with `to_cb_ret`. -/
def on_command_hook (h : Hook) (word : Nat → String) (word_eol : Nat → String) : TrampOut :=
  let w := create_wordlist word
  let weol := create_wordlist word_eol
  extern_tramp (fun _ =>
    match h.callback (CbArgs.wordArgs w weol h.userdata) with
    | Except.ok v => to_cb_ret v
    | Except.error e => Except.error e)

/-- Embeds `_on_print_hook` (python.py lines 200-206): print events
carry no native word_eol array, so the trampoline derives one by
running `create_wordeollist` over the decoded word list. -/
def on_print_hook (h : Hook) (word : Nat → String) : TrampOut :=
  let w := create_wordlist word
  let weol := create_wordeollist w
  extern_tramp (fun _ =>
    match h.callback (CbArgs.wordArgs w weol h.userdata) with
    | Except.ok v => to_cb_ret v
    | Except.error e => Except.error e)

/-- Embeds `_on_print_attrs_hook` (python.py lines 209-217): like the
print trampoline but also copying `attrs.server_time_utc` into the
script-visible attribute object passed to the callback. -/
def on_print_attrs_hook (h : Hook) (word : Nat → String) (server_time_utc : Int) : TrampOut :=
  let w := create_wordlist word
  let weol := create_wordeollist w
  extern_tramp (fun _ =>
    match h.callback (CbArgs.wordAttrArgs w weol server_time_utc h.userdata) with
    | Except.ok v => to_cb_ret v
    | Except.error e => Except.error e)

/-- Embeds `_on_server_hook` (python.py lines 220-226): identical in
shape to the command trampoline — both raw arrays are native, each
marshalled with `create_wordlist`. -/
def on_server_hook (h : Hook) (word : Nat → String) (word_eol : Nat → String) : TrampOut :=
  let w := create_wordlist word
  let weol := create_wordlist word_eol
  extern_tramp (fun _ =>
    match h.callback (CbArgs.wordArgs w weol h.userdata) with
    | Except.ok v => to_cb_ret v
    | Except.error e => Except.error e)

/-- Embeds `_on_server_attrs_hook` (python.py lines 229-237): the
server trampoline plus the copied `server_time_utc` attribute. -/
def on_server_attrs_hook (h : Hook) (word : Nat → String) (word_eol : Nat → String)
    (server_time_utc : Int) : TrampOut :=
  let w := create_wordlist word
  let weol := create_wordlist word_eol
  extern_tramp (fun _ =>
    match h.callback (CbArgs.wordAttrArgs w weol server_time_utc h.userdata) with
    | Except.ok v => to_cb_ret v
    | Except.error e => Except.error e)

/-- Embeds the removal loop of `_on_timer_hook` (python.py lines
248-251): walk the owning plugin's hook set and remove the first hook
whose identity matches, leaving the rest. -/
def removeFirstById : List Hook → Nat → List Hook
  | [], _ => []
  | h :: hs, i => if h.hid = i then hs else h :: removeFirstById hs i

/-- A timer trampoline invocation seen from outside: the `TrampOut`
data plus the owning plugin's hook set after the call and the hook's
`is_unload` flag after the call. -/
structure TimerOut where
  ret : Int
  sysAfter : Sys
  printed : List (StreamTarget × String)
  unhooked : List Nat
  hooksAfter : List Hook
  is_unload_after : Bool

/-- Embeds `_on_timer_hook` (python.py lines 240-252): inside the
redirected scope the callback runs on its stored userdata; only when
its return value `is True` — the identity check, not truthiness — does
the trampoline answer 1 and leave everything alone.  Any other return
value sets the hook's `is_unload` flag (so its later `__del__` will not
call `hexchat_unhook` — the host frees a timer hook itself when the
callback answers 0), removes the hook from the owning plugin's set, and
answers 0.  A callback exception escapes the `with` block (streams left
redirected), is caught at the cffi extern boundary which prints the
traceback and returns the default 0, and neither flag nor hook set is
touched.  `phooks` is the owning plugin's hook set at call time. -/
def on_timer_hook (h : Hook) (phooks : List Hook) : TimerOut :=
  match redirected_run (fun _ => h.callback (CbArgs.single h.userdata)) with
  | (s, Except.ok v) =>
      if v = PyVal.bool true then
        { ret := 1, sysAfter := s, printed := [], unhooked := [],
          hooksAfter := phooks, is_unload_after := h.is_unload }
      else
        { ret := 0, sysAfter := s, printed := [], unhooked := [],
          hooksAfter := removeFirstById phooks h.hid, is_unload_after := true }
  | (s, Except.error e) =>
      { ret := 0, sysAfter := s,
        printed := [(s.stderr, "Traceback: " ++ pyErrText e)], unhooked := [],
        hooksAfter := phooks, is_unload_after := h.is_unload }

/-- What reading, compiling and executing a script file can come to,
as `Plugin.loadfile` distinguishes the cases: some step of
open/read/`compile_file`/`exec` raised; execution succeeded but the
namespace lacks `__module_name__`; or execution succeeded and the
namespace carries the name plus the (defaulted-to-empty) version and
description. -/
inductive ScriptOutcome where
  | raises (e : PyErr)
  | noName
  | meta (name : String) (version : String) (description : String)
deriving DecidableEq, Repr

/-- Embeds `Plugin.loadfile` (python.py lines 104-129), with the
filesystem/interpreter work abstracted into the `outcome` argument and
the host's GUI-entry handle into `gui`.  `self.filename` is assigned
first in every case; on a raised exception or missing
`__module_name__` the method prints a failure line (inside the
`redirected_stdout` scope) and returns `False` with no GUI entry and no
host call; on success it stores the metadata, registers the GUI entry
and returns `True`.  Result: (plugin after, returned bool, printed
lines, host calls). -/
def Plugin.loadfile (p : Plugin) (filename : String) (outcome : ScriptOutcome)
    (gui : Nat) : Plugin × Bool × List (StreamTarget × String) × List HostCall :=
  match outcome with
  | ScriptOutcome.raises e =>
      ({ p with filename := filename }, false,
       [(StreamTarget.redirector, "Failed to load module: " ++ pyErrText e)], [])
  | ScriptOutcome.noName =>
      ({ p with filename := filename }, false,
       [(StreamTarget.redirector, "Failed to load module: module information must be set")], [])
  | ScriptOutcome.meta n v d =>
      ({ p with
          filename := filename
          name := n
          version := v
          description := d
          ph := Option.some gui },
       true, [], [HostCall.plugingui_add filename n d v])

/-- Embeds `load_filename` (python.py lines 268-278).  The
`os.path.expanduser`/`os.path.isabs`/`os.path.join` pipeline is
abstracted as the `resolve` function, so `resolve raw` is the resolved
path the function works with.  A falsy (empty) resolved name, or an
active plugin already holding that filename, makes the whole function
fall through to `return False` with the active set untouched;
otherwise a fresh `Plugin` runs `loadfile` and is added to the active
set only when that returns `True`.  Result: (active set after,
returned bool). -/
def load_filename (resolve : String → String) (plugins : List Plugin)
    (raw : String) (outcome : ScriptOutcome) (gui : Nat) : List Plugin × Bool :=
  let filename := resolve raw
  if filename != "" && !(plugins.any (fun q => q.filename == filename)) then
    let r := emptyPlugin.loadfile filename outcome gui
    if r.2.1 then (plugins ++ [r.1], true) else (plugins, false)
  else
    (plugins, false)

/-- The `mode` argument CPython `compile` is called with. -/
inductive CompileMode where
  | exec
  | eval
deriving DecidableEq, Repr

/-- The compile mode `compile_line` (python.py lines 76-77) uses:
`compile(string, '<string>', 'exec', optimize=2, dont_inherit=True)` —
the `'exec'` mode. -/
def compile_line_mode : CompileMode := CompileMode.exec

/-- The semantics of one console input line, abstracting what running
its code does: a single expression producing a value, a statement line
producing no value, or a line whose compilation or execution raises. -/
inductive LineSem where
  | expr (v : PyVal)
  | stmt
  | raises (e : PyErr)
deriving DecidableEq, Repr

/-- Models CPython `eval(code, globals, locals)` on a code object
compiled in the given mode: a code object compiled in `'exec'` mode
always returns `None` from `eval` — expression values are computed and
discarded — while one compiled in `'eval'` mode returns the
expression's value (and `'eval'`-mode compilation of a statement is a
`SyntaxError`). -/
def run_code : CompileMode → LineSem → Except PyErr (Option PyVal)
  | _, LineSem.raises e => Except.error e
  | CompileMode.exec, LineSem.expr _ => Except.ok Option.none
  | CompileMode.exec, LineSem.stmt => Except.ok Option.none
  | CompileMode.eval, LineSem.expr v => Except.ok (Option.some v)
  | CompileMode.eval, LineSem.stmt => Except.error (PyErr.exc "SyntaxError")

/-- The `repr`-style text `print(ret)` would produce for a value. -/
def pyValText : PyVal → String
  | PyVal.none => "None"
  | PyVal.bool b => if b then "True" else "False"
  | PyVal.int n => toString n
  | PyVal.str s => s

/-- Embeds `exec_in_interp` (python.py lines 338-356): empty input
returns immediately; otherwise the line is compiled by `compile_line`
(mode `'exec'`) and run by `eval` against the persistent console
scope inside the redirected scope; a non-`None` result would be
printed, and an exception is caught and printed.  `text` is the input
line and `sem` the semantics of its code; the result is the list of
printed lines tagged with their stream. -/
def exec_in_interp (text : String) (sem : LineSem) : List (StreamTarget × String) :=
  if text = "" then []
  else
    match run_code compile_line_mode sem with
    | Except.ok (Option.some v) => [(StreamTarget.redirector, pyValText v)]
    | Except.ok Option.none => []
    | Except.error e => [(StreamTarget.redirector, pyErrText e)]

/-- The word-to-end-of-line sequence exactly as C7 words it:
every entry is the word at its position joined to the next entry by a
single space, unconditionally, and the last entry is the last word
alone.  This definition follows the claim's words; it is the comparison
point for `create_wordeollist`. -/
def word_eol_claim : List String → List String
  | [] => []
  | w :: ws =>
      match word_eol_claim ws with
      | [] => [w]
      | e :: es => (w ++ " " ++ e) :: e :: es

/-- The word-to-end-of-line sequence as the code actually builds it:
like `word_eol_claim`, except that an empty word contributes its
successor's entry unchanged instead of being joined with a leading
space.  This is the amended form of C7. -/
def word_eol_join : List String → List String
  | [] => []
  | w :: ws =>
      match word_eol_join ws with
      | [] => [w]
      | e :: es => (if w ≠ "" then w ++ " " ++ e else e) :: e :: es

/-- A script callback that raises on every invocation. -/
def cbRaise : CbArgs → Except PyErr PyVal := fun _ => Except.error (PyErr.exc "boom")

/-- A hook owning `cbRaise`, not unload-marked, with a native handle. -/
def hookRaise : Hook :=
  { hid := 7, is_unload := false, callback := cbRaise,
    userdata := PyVal.int 1, hexchat_hook := Option.some 42 }

/-- A script callback returning the boolean `True` on every invocation. -/
def cbTrue : CbArgs → Except PyErr PyVal := fun _ => Except.ok (PyVal.bool true)

/-- A timer hook whose callback returns `True`. -/
def hookTrue : Hook :=
  { hid := 4, is_unload := false, callback := cbTrue,
    userdata := PyVal.none, hexchat_hook := Option.some 10 }

/-- A script callback returning the integer 2 — a truthy value that is
not the object `True`. -/
def cbInt2 : CbArgs → Except PyErr PyVal := fun _ => Except.ok (PyVal.int 2)

/-- A timer hook whose callback returns the truthy integer 2. -/
def hookInt2 : Hook :=
  { hid := 5, is_unload := false, callback := cbInt2,
    userdata := PyVal.none, hexchat_hook := Option.some 11 }

/-- A hook with identity 9, used to exercise `remove_hook`. -/
def hook9 : Hook :=
  { hid := 9, is_unload := false, callback := fun _ => Except.ok PyVal.none,
    userdata := PyVal.int 99, hexchat_hook := Option.some 12 }

/-- A plugin owning exactly `hook9`. -/
def plugin9 : Plugin := { emptyPlugin with hooks := [hook9] }

/-- The raw host argument array with only slot 1 filled — a one-word
event, e.g. a command issued with no arguments. -/
def rawOneWord : Nat → String := fun i => if i = 1 then "a" else ""

/-- C2: the claim says `Plugin.add_hook` with `is_unload` false
registers a native callback trampoline with the host for the given
event kind and stores the returned native handle in the `Hook` before
returning.  At a concrete call this is false: `add_hook` makes no host
call at all (its host-call list is empty) and the returned hook's
`hexchat_hook` is still `None` — and `add_hook` does not even take an
event kind. -/
theorem c2_add_hook_registers_nothing :
    (emptyPlugin.add_hook 1 cbTrue PyVal.none false).2.2 = ([] : List HostCall) ∧
    (emptyPlugin.add_hook 1 cbTrue PyVal.none false).2.1.hexchat_hook = Option.none :=
  ⟨rfl, rfl⟩

/-- C2 (amended): for every plugin and either value of `is_unload`,
`add_hook` constructs a `Hook` whose native-handle field is `None`,
appends it to the plugin's hook set, returns it, and performs no host
call — registration with the host and storing of the native handle are
left entirely to the caller. -/
theorem c2_add_hook_only_constructs (p : Plugin) (hid : Nat)
    (cb : CbArgs → Except PyErr PyVal) (ud : PyVal) (iu : Bool) :
    p.add_hook hid cb ud iu =
      ({ p with hooks := p.hooks ++ [⟨hid, iu, cb, ud, Option.none⟩] },
       ⟨hid, iu, cb, ud, Option.none⟩, ([] : List HostCall)) :=
  rfl

/-- C4: at a concrete timer dispatch whose callback returns the truthy
integer 2, the claim "truthy return value reports continue (1) and the
hook remains" fails: the trampoline's `is True` identity test rejects
2, so it reports stop (0, not the claimed 1) and removes the hook from
the plugin's hook set. -/
theorem c4_truthy_non_true_reports_stop :
    truthy (PyVal.int 2) = true ∧
    (on_timer_hook hookInt2 [hookInt2]).ret = 0 ∧
    (on_timer_hook hookInt2 [hookInt2]).hooksAfter = [] ∧
    (0 : Int) ≠ 1 :=
  ⟨rfl, rfl, rfl, by decide⟩

/-- C5: the claim says the length scan walks from slot 31 down to slot
1, so a single-argument array (slots 2..31 empty) yields one entry.  On
that input the code returns the empty list: the loop `range(31, 1, -1)`
stops before index 1, `wordlist_len` answers 0, and `create_wordlist`
decodes nothing — contradicting both the claim and the code's own
comment that the scan finds the actual last non-empty slot. -/
theorem c5_scan_stops_before_slot_one :
    wordlist_len rawOneWord = 0 ∧
    create_wordlist rawOneWord = [] ∧
    create_wordlist (fun _ => "") = [] ∧
    create_wordlist (fun i => if 1 ≤ i ∧ i ≤ 2 then "w" else "") = ["w", "w"] := by
  refine ⟨by decide, by decide, by decide, by decide⟩

/-- C6: at a concrete plugin owning one hook with identity 9,
`remove_hook` called with the known handle 9 raises `AttributeError`
(the body evaluates `hook.userdata` on the integer handle itself, not
on the found hook) before removing anything, so the hook stays and no
userdata is returned; called with the unknown handle 8 it prints
"Hook not found" and changes nothing, as the claim says. -/
theorem c6_remove_hook_known_handle_raises :
    plugin9.remove_hook 9 = (Except.error PyErr.attributeError, plugin9, []) ∧
    plugin9.remove_hook 8 = (Except.ok Option.none, plugin9, ["Hook not found"]) :=
  ⟨rfl, rfl⟩

/-- C9: the claim says the streams are restored when the
`redirected_stdout` scope exits in all cases including exceptions.  The
context manager has no `try`/`finally` around its `yield`, so on a
raising body the statements after the yield never run: the stream state
after the scope is still the redirector pair, not the original pair —
while a normally returning body does get the streams restored. -/
theorem c9_no_restore_on_exception :
    (redirected_run (fun _ => (Except.error (PyErr.exc "boom") : Except PyErr PyVal))).1 =
      sysRedirected ∧
    (redirected_run (fun _ => (Except.ok PyVal.none : Except PyErr PyVal))).1 = sysOrig ∧
    sysRedirected ≠ sysOrig :=
  ⟨rfl, rfl, by decide⟩

/-- C10: the claim says a non-empty line holding an expression with a
non-`None` value gets that value printed.  `compile_line` compiles in
`'exec'` mode, and `eval` of an exec-mode code object always returns
`None`, so the value is computed and discarded and nothing is printed —
unlike `'eval'`-mode compilation, which would surface the value.  The
no-op on empty input and the catch-and-print of evaluation exceptions
do behave as claimed. -/
theorem c10_exec_mode_never_prints_value :
    exec_in_interp "" (LineSem.expr (PyVal.int 2)) = [] ∧
    exec_in_interp "1+1" (LineSem.expr (PyVal.int 2)) = [] ∧
    run_code CompileMode.eval (LineSem.expr (PyVal.int 2)) =
      Except.ok (Option.some (PyVal.int 2)) ∧
    exec_in_interp "1/0" (LineSem.raises (PyErr.exc "ZeroDivisionError")) =
      [(StreamTarget.redirector, "ZeroDivisionError")] := by
  refine ⟨by decide, by decide, rfl, by decide⟩

theorem wordeol_go_length (l : List String) :
    ∀ accum, (wordeol_go accum l).length = l.length := by
  induction l with
  | nil => intro accum; rfl
  | cons w ws ih => intro accum; simp [wordeol_go, ih]

theorem wordeol_go_append (w : String) (l : List String) :
    ∀ accum, wordeol_go accum (l ++ [w]) =
      wordeol_step (wordeol_final accum l) w :: wordeol_go accum l := by
  induction l with
  | nil => intro accum; rfl
  | cons x xs ih =>
      intro accum
      have h2 := ih (Option.some (wordeol_step accum x))
      calc wordeol_go accum ((x :: xs) ++ [w])
          = wordeol_go (Option.some (wordeol_step accum x)) (xs ++ [w]) ++
              [wordeol_step accum x] := rfl
        _ = (wordeol_step (wordeol_final (Option.some (wordeol_step accum x)) xs) w ::
              wordeol_go (Option.some (wordeol_step accum x)) xs) ++
              [wordeol_step accum x] := by rw [h2]
        _ = wordeol_step (wordeol_final accum (x :: xs)) w :: wordeol_go accum (x :: xs) := by
              rw [List.cons_append]
              rfl

theorem wordeol_final_eq_head (l : List String) :
    ∀ accum, l ≠ [] →
      wordeol_final accum l = Option.some ((wordeol_go accum l).headD "") := by
  induction l with
  | nil => intro accum h; exact absurd rfl h
  | cons x xs ih =>
      intro accum _
      by_cases hxs : xs = []
      · subst hxs; simp [wordeol_go, wordeol_final]
      · have hrec := ih (Option.some (wordeol_step accum x)) hxs
        have hne : wordeol_go (Option.some (wordeol_step accum x)) xs ≠ [] := by
          intro hnil
          have := wordeol_go_length xs (Option.some (wordeol_step accum x))
          rw [hnil] at this
          exact hxs (List.length_eq_zero.mp this.symm)
        simp only [wordeol_go, wordeol_final, hrec]
        cases hgo : wordeol_go (Option.some (wordeol_step accum x)) xs with
        | nil => exact absurd hgo hne
        | cons e es => simp

theorem word_eol_join_length (l : List String) :
    (word_eol_join l).length = l.length := by
  induction l with
  | nil => rfl
  | cons w ws ih =>
      unfold word_eol_join
      cases h : word_eol_join ws with
      | nil =>
          rw [h] at ih
          simp only [List.length_nil] at ih
          simp only [List.length_cons, List.length_nil]
          omega
      | cons e es =>
          rw [h] at ih
          simp only [List.length_cons] at ih ⊢
          omega

theorem create_wordeollist_eq_join (words : List String) :
    create_wordeollist words = word_eol_join words := by
  induction words with
  | nil => rfl
  | cons w ws ih =>
      by_cases hws : ws = []
      · subst hws; rfl
      · have hrev : ws.reverse ≠ [] := by
          intro hnil
          exact hws (by simpa using congrArg List.reverse hnil)
        unfold create_wordeollist at ih ⊢
        rw [List.reverse_cons, wordeol_go_append, ih,
            wordeol_final_eq_head ws.reverse Option.none hrev, ih]
        have hjoin : word_eol_join ws ≠ [] := by
          intro hnil
          have := word_eol_join_length ws
          rw [hnil] at this
          exact hws (List.length_eq_zero.mp this.symm)
        cases hj : word_eol_join ws with
        | nil => exact absurd hj hjoin
        | cons e es =>
            show wordeol_step (Option.some ((e :: es).headD "")) w :: e :: es =
              word_eol_join (w :: ws)
            unfold word_eol_join
            rw [hj]
            rfl

/-- C7: at the concrete word list ["a", "", "c"] — a shape that does
occur, since the host's raw arrays may hold empty slots between
non-empty ones — the claim's formula (every entry is its word joined to
the next entry by one space) predicts ["a  c", " c", "c"], but the code
skips the join for an empty word and carries the next entry through
unchanged, producing ["a c", "c", "c"]. -/
theorem c7_empty_word_skips_join :
    create_wordeollist ["a", "", "c"] = ["a c", "c", "c"] ∧
    word_eol_claim ["a", "", "c"] = ["a  c", " c", "c"] ∧
    (["a c", "c", "c"] : List String) ≠ ["a  c", " c", "c"] :=
  ⟨by decide, by decide, by decide⟩

/-- C7 (amended): `create_wordeollist` returns a list of the same
length in which the entry at each position is the word at that position
joined to the entry at the next position by a single space when that
word is non-empty, and is the next position's entry unchanged when that
word is empty; the last entry is the last word alone.  In particular on
["a", "b", "c"] it returns ["a b c", "b c", "c"]. -/
theorem c7_word_eol_amended :
    (∀ words : List String, create_wordeollist words = word_eol_join words) ∧
    (∀ words : List String, (create_wordeollist words).length = words.length) ∧
    create_wordeollist ["a", "b", "c"] = ["a b c", "b c", "c"] := by
  refine ⟨create_wordeollist_eq_join, ?_, by decide⟩
  intro words
  rw [create_wordeollist_eq_join]
  exact word_eol_join_length words

/-- C4 (amended): for every timer dispatch whose callback returns a
value, if that value is the boolean `True` (the `is True` identity
test) the trampoline reports continue (1) and leaves the plugin's hook
set, the `is_unload` flag and the streams alone; for any other return
value — including truthy values that are not `True` — the hook's
`is_unload` flag is set true, the hook is removed from its owning
plugin's hook set with no native handle deregistered, and the
trampoline reports stop (0). -/
theorem c4_timer_identity_check (h : Hook) (phooks : List Hook) (v : PyVal)
    (hv : h.callback (CbArgs.single h.userdata) = Except.ok v) :
    (v = PyVal.bool true →
       on_timer_hook h phooks =
         { ret := 1, sysAfter := sysOrig, printed := [], unhooked := [],
           hooksAfter := phooks, is_unload_after := h.is_unload }) ∧
    (v ≠ PyVal.bool true →
       on_timer_hook h phooks =
         { ret := 0, sysAfter := sysOrig, printed := [], unhooked := [],
           hooksAfter := removeFirstById phooks h.hid, is_unload_after := true }) := by
  constructor
  · intro hveq
    subst hveq
    simp [on_timer_hook, redirected_run, hv]
  · intro hne
    simp [on_timer_hook, redirected_run, hv, hne]

/-- C4 witness: a concrete timer hook whose callback returns `True`
keeps running — the trampoline answers 1 and the hook set is
untouched. -/
theorem c4_timer_identity_check_witness :
    hookTrue.callback (CbArgs.single hookTrue.userdata) = Except.ok (PyVal.bool true) ∧
    on_timer_hook hookTrue [hookTrue] =
      { ret := 1, sysAfter := sysOrig, printed := [], unhooked := [],
        hooksAfter := [hookTrue], is_unload_after := hookTrue.is_unload } :=
  ⟨rfl, (c4_timer_identity_check hookTrue [hookTrue] (PyVal.bool true) rfl).1 rfl⟩

theorem mem_run_unload_hook {e : TeardownEvent} {h : Hook}
    (he : e ∈ run_unload_hook h) :
    e = TeardownEvent.unloadCallbackRun h.hid ∨
      ∃ t, e = TeardownEvent.unloadCallbackFailed h.hid t := by
  unfold run_unload_hook at he
  by_cases hu : h.is_unload
  · rw [if_pos hu] at he
    rcases List.mem_cons.mp he with h1 | h2
    · exact Or.inl h1
    · cases hc : h.callback (CbArgs.single h.userdata) with
      | ok v => rw [hc] at h2; cases h2
      | error err =>
          rw [hc] at h2
          rcases List.mem_singleton.mp h2 with h3
          exact Or.inr ⟨_, h3⟩
  · rw [if_neg hu] at he
    cases he

theorem mem_hook_del {e : TeardownEvent} {h : Hook} (he : e ∈ hook_del h) :
    (∃ n, e = TeardownEvent.unhook n) ∨ ∃ i, e = TeardownEvent.assertFailed i := by
  unfold hook_del at he
  by_cases hu : h.is_unload
  · rw [if_pos hu] at he; cases he
  · rw [if_neg hu] at he
    cases hh : h.hexchat_hook with
    | some n => rw [hh] at he; exact Or.inl ⟨n, List.mem_singleton.mp he⟩
    | none => rw [hh] at he; exact Or.inr ⟨h.hid, List.mem_singleton.mp he⟩

/-- C1: for every plugin, the teardown trace splits into a prefix and a
suffix such that the prefix holds an invocation of every unload-marked
hook's callback — and, when such a callback raises, its individual
"Failed to run hook" report — while holding no native-handle
deregistration and no GUI-entry removal, and the suffix holds no
further callback invocation.  So every unload-marked callback runs
strictly before any of the plugin's native hook handles is deregistered
from the host and before the plugin's GUI entry is removed, even when
callbacks raise. -/
theorem c1_unload_callbacks_run_first (p : Plugin) :
    ∃ pre post,
      plugin_del p = pre ++ post ∧
      (∀ h ∈ p.hooks, h.is_unload = true →
         TeardownEvent.unloadCallbackRun h.hid ∈ pre) ∧
      (∀ h ∈ p.hooks, h.is_unload = true → ∀ e',
         h.callback (CbArgs.single h.userdata) = Except.error e' →
         TeardownEvent.unloadCallbackFailed h.hid
           ("Failed to run hook: " ++ pyErrText e') ∈ pre) ∧
      (∀ e ∈ pre, (∀ n, e ≠ TeardownEvent.unhook n) ∧
         (∀ n, e ≠ TeardownEvent.guiRemove n)) ∧
      (∀ e ∈ post, ∀ i, e ≠ TeardownEvent.unloadCallbackRun i) := by
  refine ⟨(p.hooks.map run_unload_hook).flatten,
    (p.hooks.map hook_del).flatten ++
      (match p.ph with
       | Option.some n => [TeardownEvent.guiRemove n]
       | Option.none => []), ?_, ?_, ?_, ?_, ?_⟩
  · unfold plugin_del
    rw [List.append_assoc]
  · intro h hmem hu
    apply List.mem_flatten.mpr
    refine ⟨run_unload_hook h, List.mem_map_of_mem run_unload_hook hmem, ?_⟩
    unfold run_unload_hook
    rw [if_pos hu]
    exact List.mem_cons_self _ _
  · intro h hmem hu e' herr
    apply List.mem_flatten.mpr
    refine ⟨run_unload_hook h, List.mem_map_of_mem run_unload_hook hmem, ?_⟩
    unfold run_unload_hook
    rw [if_pos hu, herr]
    exact List.mem_cons_of_mem _ (List.mem_singleton.mpr rfl)
  · intro e hepre
    rcases List.mem_flatten.mp hepre with ⟨l, hl, hel⟩
    rcases List.mem_map.mp hl with ⟨h, _, rfl⟩
    rcases mem_run_unload_hook hel with h1 | ⟨t, h2⟩
    · subst h1; exact ⟨(fun n hx => nomatch hx), (fun n hx => nomatch hx)⟩
    · subst h2; exact ⟨(fun n hx => nomatch hx), (fun n hx => nomatch hx)⟩
  · intro e hepost i
    rcases List.mem_append.mp hepost with h1 | h2
    · rcases List.mem_flatten.mp h1 with ⟨l, hl, hel⟩
      rcases List.mem_map.mp hl with ⟨h, _, rfl⟩
      rcases mem_hook_del hel with ⟨n, rfl⟩ | ⟨j, rfl⟩
      · intro hx; cases hx
      · intro hx; cases hx
    · cases hph : p.ph with
      | some n =>
          rw [hph] at h2
          rw [List.mem_singleton.mp h2]
          intro hx; cases hx
      | none => rw [hph] at h2; cases h2

/-- The observable outcome every trampoline produces when its callback
raises `e`: the cffi extern boundary catches the exception, the
traceback goes to the stream `sys.stderr` points at — still the
redirector, since the missing restore leaves the streams redirected —
the host receives the declared error value 0, and no native handle is
deregistered. -/
def errorTrampOut (e : PyErr) : TrampOut :=
  { ret := 0, sysAfter := sysRedirected,
    printed := [(StreamTarget.redirector, "Traceback: " ++ pyErrText e)],
    unhooked := [] }

/-- C3: for every hook, every raw argument array and every exception,
if the hook's callback raises on the arguments the trampoline passes
it, then each of the six trampolines (command, print,
print-with-attributes, server, server-with-attributes, timer) returns
the integer 0 to the host instead of propagating the exception, prints
the traceback through the output redirector, and deregisters nothing —
and the timer trampoline additionally leaves the plugin's hook set and
the hook's `is_unload` flag untouched. -/
theorem c3_callback_exception_contained (h : Hook) (word : Nat → String)
    (word_eol : Nat → String) (att : Int) (phooks : List Hook) (e : PyErr) :
    (h.callback (CbArgs.wordArgs (create_wordlist word) (create_wordlist word_eol)
        h.userdata) = Except.error e →
      on_command_hook h word word_eol = errorTrampOut e ∧
      on_server_hook h word word_eol = errorTrampOut e) ∧
    (h.callback (CbArgs.wordArgs (create_wordlist word)
        (create_wordeollist (create_wordlist word)) h.userdata) = Except.error e →
      on_print_hook h word = errorTrampOut e) ∧
    (h.callback (CbArgs.wordAttrArgs (create_wordlist word)
        (create_wordeollist (create_wordlist word)) att h.userdata) = Except.error e →
      on_print_attrs_hook h word att = errorTrampOut e) ∧
    (h.callback (CbArgs.wordAttrArgs (create_wordlist word) (create_wordlist word_eol)
        att h.userdata) = Except.error e →
      on_server_attrs_hook h word word_eol att = errorTrampOut e) ∧
    (h.callback (CbArgs.single h.userdata) = Except.error e →
      on_timer_hook h phooks =
        { ret := 0, sysAfter := sysRedirected,
          printed := [(StreamTarget.redirector, "Traceback: " ++ pyErrText e)],
          unhooked := [], hooksAfter := phooks, is_unload_after := h.is_unload }) := by
  refine ⟨?_, ?_, ?_, ?_, ?_⟩
  · intro hc
    constructor
    · simp [on_command_hook, extern_tramp, redirected_run, errorTrampOut, sysRedirected, hc]
    · simp [on_server_hook, extern_tramp, redirected_run, errorTrampOut, sysRedirected, hc]
  · intro hc
    simp [on_print_hook, extern_tramp, redirected_run, errorTrampOut, sysRedirected, hc]
  · intro hc
    simp [on_print_attrs_hook, extern_tramp, redirected_run, errorTrampOut, sysRedirected, hc]
  · intro hc
    simp [on_server_attrs_hook, extern_tramp, redirected_run, errorTrampOut, sysRedirected, hc]
  · intro hc
    simp [on_timer_hook, redirected_run, sysRedirected, hc]

/-- C3 witness: a concrete hook whose callback raises on every
invocation, dispatched through all six trampolines on the concrete
one-word raw array: every trampoline answers 0, prints the traceback on
the redirector, and deregisters nothing. -/
theorem c3_callback_exception_contained_witness :
    hookRaise.callback (CbArgs.single hookRaise.userdata) =
      Except.error (PyErr.exc "boom") ∧
    on_command_hook hookRaise rawOneWord rawOneWord = errorTrampOut (PyErr.exc "boom") ∧
    on_server_hook hookRaise rawOneWord rawOneWord = errorTrampOut (PyErr.exc "boom") ∧
    on_print_hook hookRaise rawOneWord = errorTrampOut (PyErr.exc "boom") ∧
    on_print_attrs_hook hookRaise rawOneWord 0 = errorTrampOut (PyErr.exc "boom") ∧
    on_server_attrs_hook hookRaise rawOneWord rawOneWord 0 = errorTrampOut (PyErr.exc "boom") ∧
    on_timer_hook hookRaise [hookRaise] =
      { ret := 0, sysAfter := sysRedirected,
        printed := [(StreamTarget.redirector, "Traceback: boom")],
        unhooked := [], hooksAfter := [hookRaise],
        is_unload_after := hookRaise.is_unload } := by
  have t := c3_callback_exception_contained hookRaise rawOneWord rawOneWord 0
    [hookRaise] (PyErr.exc "boom")
  exact ⟨rfl, (t.1 rfl).1, (t.1 rfl).2, t.2.1 rfl, t.2.2.1 rfl, t.2.2.2.1 rfl,
    t.2.2.2.2 rfl⟩

/-- The plugin object a successful `loadfile` leaves in the active
set: fresh except for the resolved filename, the script's metadata and
the GUI handle. -/
def loadedPlugin (filename n v d : String) (gui : Nat) : Plugin :=
  { ph := Option.some gui, name := n, filename := filename, version := v,
    description := d, hooks := [] }

theorem load_filename_eq (resolve : String → String) (ps : List Plugin)
    (raw : String) (outcome : ScriptOutcome) (gui : Nat) :
    load_filename resolve ps raw outcome gui =
      if (resolve raw != "" && !(ps.any (fun q => q.filename == resolve raw))) = true then
        match outcome with
        | ScriptOutcome.raises _ => (ps, false)
        | ScriptOutcome.noName => (ps, false)
        | ScriptOutcome.meta n v d => (ps ++ [loadedPlugin (resolve raw) n v d gui], true)
      else (ps, false) := by
  by_cases hc : (resolve raw != "" && !(ps.any (fun q => q.filename == resolve raw))) = true
  · rw [if_pos hc]
    cases outcome <;>
      simp [load_filename, Plugin.loadfile, loadedPlugin, emptyPlugin, hc]
  · rw [if_neg hc]
    simp [load_filename, hc]

theorem load_filename_dup (resolve : String → String) (ps : List Plugin)
    (raw : String) (outcome : ScriptOutcome) (gui : Nat)
    (hdup : ∃ q ∈ ps, q.filename = resolve raw) :
    load_filename resolve ps raw outcome gui = (ps, false) := by
  rcases hdup with ⟨q, hq, hfn⟩
  have hany : ps.any (fun p' => p'.filename == resolve raw) = true :=
    List.any_eq_true.mpr ⟨q, hq, by simp [hfn]⟩
  rw [load_filename_eq]
  simp [hany]

/-- C8: for every resolution function, active set, raw path, script
outcome and GUI handle: (i) when some active plugin already holds the
resolved path, `load_filename` returns false and leaves the active set
unchanged; (ii) likewise when reading/compiling/executing raises and
(iii) when the required name metadata is missing; (iv) distinctness of
the active plugins' paths is preserved by any load, so at most one
active plugin per resolved path ever exists; and (v) after a load that
returned true, loading the same raw path again — whatever the second
script run would do — returns false and leaves the set unchanged. -/
theorem c8_load_filename_guards (resolve : String → String) (plugins : List Plugin)
    (raw : String) (outcome : ScriptOutcome) (gui : Nat) :
    ((∃ q ∈ plugins, q.filename = resolve raw) →
       load_filename resolve plugins raw outcome gui = (plugins, false)) ∧
    (∀ e, outcome = ScriptOutcome.raises e →
       load_filename resolve plugins raw outcome gui = (plugins, false)) ∧
    (outcome = ScriptOutcome.noName →
       load_filename resolve plugins raw outcome gui = (plugins, false)) ∧
    ((plugins.map Plugin.filename).Nodup →
       ((load_filename resolve plugins raw outcome gui).1.map Plugin.filename).Nodup) ∧
    (∀ outcome' gui', (load_filename resolve plugins raw outcome gui).2 = true →
       load_filename resolve (load_filename resolve plugins raw outcome gui).1 raw
         outcome' gui' =
         ((load_filename resolve plugins raw outcome gui).1, false)) := by
  refine ⟨load_filename_dup resolve plugins raw outcome gui, ?_, ?_, ?_, ?_⟩
  · intro e hout
    subst hout
    rw [load_filename_eq]
    by_cases hc : (resolve raw != "" &&
        !(plugins.any (fun q => q.filename == resolve raw))) = true
    · rw [if_pos hc]
    · rw [if_neg hc]
  · intro hout
    subst hout
    rw [load_filename_eq]
    by_cases hc : (resolve raw != "" &&
        !(plugins.any (fun q => q.filename == resolve raw))) = true
    · rw [if_pos hc]
    · rw [if_neg hc]
  · intro hnd
    rw [load_filename_eq]
    by_cases hc : (resolve raw != "" &&
        !(plugins.any (fun q => q.filename == resolve raw))) = true
    · rw [if_pos hc]
      cases outcome with
      | raises e => exact hnd
      | noName => exact hnd
      | meta n v d =>
          have hnotin : resolve raw ∉ plugins.map Plugin.filename := by
            intro hmem
            rcases List.mem_map.mp hmem with ⟨q, hq, hfq⟩
            have hany : plugins.any (fun p' => p'.filename == resolve raw) = true :=
              List.any_eq_true.mpr ⟨q, hq, by simp [hfq]⟩
            simp [hany] at hc
          show ((plugins ++ [loadedPlugin (resolve raw) n v d gui]).map
            Plugin.filename).Nodup
          rw [List.map_append, List.nodup_append]
          refine ⟨hnd, List.nodup_singleton _, ?_⟩
          intro a ha hb
          have hax : a = (loadedPlugin (resolve raw) n v d gui).filename := by
            simpa using hb
          rw [hax] at ha
          exact hnotin ha
    · rw [if_neg hc]
      exact hnd
  · intro outcome' gui' hsucc
    rw [load_filename_eq] at hsucc
    by_cases hc : (resolve raw != "" &&
        !(plugins.any (fun q => q.filename == resolve raw))) = true
    · rw [if_pos hc] at hsucc
      cases outcome with
      | raises e => simp at hsucc
      | noName => simp at hsucc
      | meta n v d =>
          have hres : load_filename resolve plugins raw (ScriptOutcome.meta n v d) gui =
              (plugins ++ [loadedPlugin (resolve raw) n v d gui], true) := by
            rw [load_filename_eq, if_pos hc]
          rw [hres]
          have hmem : (loadedPlugin (resolve raw) n v d gui) ∈
              plugins ++ [loadedPlugin (resolve raw) n v d gui] :=
            List.mem_append_right plugins (List.mem_singleton.mpr rfl)
          exact load_filename_dup resolve
            (plugins ++ [loadedPlugin (resolve raw) n v d gui]) raw outcome' gui'
            ⟨loadedPlugin (resolve raw) n v d gui, hmem, rfl⟩
    · rw [if_neg hc] at hsucc
      simp at hsucc

/-- C8 witness: on an empty active set, loading "x.py" (whose script
run yields the required metadata) succeeds; immediately loading the
same path again fails and leaves the active set as the first load left
it. -/
theorem c8_load_filename_guards_witness :
    (load_filename (fun s => s) [] "x.py" (ScriptOutcome.meta "x" "1" "d") 5).2 = true ∧
    load_filename (fun s => s)
        (load_filename (fun s => s) [] "x.py" (ScriptOutcome.meta "x" "1" "d") 5).1
        "x.py" (ScriptOutcome.meta "x" "1" "d") 6 =
      ((load_filename (fun s => s) [] "x.py" (ScriptOutcome.meta "x" "1" "d") 5).1,
       false) :=
  ⟨rfl, (c8_load_filename_guards (fun s => s) [] "x.py"
      (ScriptOutcome.meta "x" "1" "d") 5).2.2.2.2
    (ScriptOutcome.meta "x" "1" "d") 6 rfl⟩

end HexchatPy